import Mathlib

/-!
Verification of the wave-vector synthesis and grid-regridding pipeline of the
GFS_Wave_Forecast repository.

Shallow embedding conventions:
* Python floats carrying possible NaN are modelled as `Option ℝ` (`none` = NaN);
  arithmetic on them propagates `none` exactly as IEEE arithmetic propagates NaN.
* Coordinate/selection arithmetic (latitudes, longitudes, squared distances),
  which never involves transcendental functions, is modelled over `ℚ`.
* Source arrays are modelled as total index functions together with their
  dimensions, mirroring `numpy` 2-D arrays.
* The network-fetching layers are out of scope (per the spec); the pure
  numeric functions below are translated line by line from the Python source.
-/

set_option maxRecDepth 4000

/-! ### NaN-propagating float arithmetic (for `math.*` on Python floats) -/

/-- Subtraction on floats-with-NaN: any NaN operand yields NaN. -/
def fsub : Option ℝ → Option ℝ → Option ℝ
  | some a, some b => some (a - b)
  | _, _ => none

/-- Multiplication on floats-with-NaN: any NaN operand yields NaN. -/
def fmul : Option ℝ → Option ℝ → Option ℝ
  | some a, some b => some (a * b)
  | _, _ => none

/-- `math.cos` on floats-with-NaN: `cos(NaN) = NaN`. -/
noncomputable def fcos : Option ℝ → Option ℝ
  | some a => some (Real.cos a)
  | none => none

/-- `math.sin` on floats-with-NaN: `sin(NaN) = NaN`. -/
noncomputable def fsin : Option ℝ → Option ℝ
  | some a => some (Real.sin a)
  | none => none

/-- `np.isnan` / `math.isnan` on floats-with-NaN. -/
def fisnan : Option ℝ → Bool
  | none => true
  | some _ => false

/-! ### `wave_to_uv` (fetch_simple.py lines 199-220; identical formula in
fetch_gfs_data.py lines 143-166, applied there elementwise by numpy) -/

/-- `wave_to_uv(direction, height)` from the source: meteorological direction
to math angle `270 - direction`, radians conversion, magnitude `height * 0.5`,
then `u = magnitude*cos`, `v = magnitude*sin`.  NaN operands propagate. -/
noncomputable def wave_to_uv (direction height : Option ℝ) : Option ℝ × Option ℝ :=
  let math_angle := fsub (some 270) direction
  let radians := fmul math_angle (some (Real.pi / 180))
  let magnitude := fmul height (some 0.5)
  (fmul magnitude (fcos radians), fmul magnitude (fsin radians))

/-- The per-cell conversion of `convert_to_leaflet_format`
(fetch_simple.py lines 280-288): cells whose height or direction is NaN are
emitted as `(0.0, 0.0)` without calling `wave_to_uv`. -/
noncomputable def leaflet_cell (h d : Option ℝ) : Option ℝ × Option ℝ :=
  if fisnan h || fisnan d then (some 0, some 0)
  else wave_to_uv d h

/-- The conversion formula exactly as the specification states it
(spec §4.1): `mathAngle = 270 - direction`, `u = magnitude*cos(radians(mathAngle))`,
`v = magnitude*sin(radians(mathAngle))`, `magnitude = height * 0.5`. -/
noncomputable def toVector_spec (direction height : ℝ) : ℝ × ℝ :=
  (height * 0.5 * Real.cos ((270 - direction) * (Real.pi / 180)),
   height * 0.5 * Real.sin ((270 - direction) * (Real.pi / 180)))

/-! ### Land mask (generate_land_mask.py) -/

/-- First normalization loop of `is_land_detailed` (lines 68-69):
`while lon > 180: lon -= 360`. -/
def normHigh (lon : ℚ) : ℚ :=
  if h : lon > 180 then normHigh (lon - 360) else lon
termination_by (⌈(lon - 180) / 360⌉).toNat
decreasing_by
  have e : ⌈(lon - 360 - 180) / 360⌉ = ⌈(lon - 180) / 360⌉ - 1 := by
    rw [show (lon - 360 - 180) / 360 = (lon - 180) / 360 - (1 : ℤ) by push_cast; ring]
    exact Int.ceil_sub_int _ 1
  have pos : 0 < ⌈(lon - 180) / 360⌉ :=
    Int.ceil_pos.mpr (div_pos (by linarith) (by norm_num))
  omega

/-- Second normalization loop of `is_land_detailed` (lines 70-71):
`while lon < -180: lon += 360`. -/
def normLow (lon : ℚ) : ℚ :=
  if h : lon < -180 then normLow (lon + 360) else lon
termination_by (⌈(-180 - lon) / 360⌉).toNat
decreasing_by
  have e : ⌈(-180 - (lon + 360)) / 360⌉ = ⌈(-180 - lon) / 360⌉ - 1 := by
    rw [show (-180 - (lon + 360)) / 360 = (-180 - lon) / 360 - (1 : ℤ) by push_cast; ring]
    exact Int.ceil_sub_int _ 1
  have pos : 0 < ⌈(-180 - lon) / 360⌉ :=
    Int.ceil_pos.mpr (div_pos (by linarith) (by norm_num))
  omega

/-- The full longitude normalization of `is_land_detailed`: both loops in
source order. -/
def normalize_lon (lon : ℚ) : ℚ := normLow (normHigh lon)

/-- The bounding-box chain of `is_land_detailed` (lines 73-245), checked on
the already-normalized longitude.  Python's nested island blocks (Caribbean,
Indonesia) fall through to the subsequent checks when the outer box matches
but no inner island does; they are therefore flattened here as
`outer ∧ inner` conjunctions, preserving order. -/
def is_land_boxes (lat lon : ℚ) : Bool :=
  if lat < -60 then true                                            -- Antarctica
  else if lat > 85 then true                                        -- Arctic ice
  else if 51 < lat ∧ lat < 72 ∧ -170 < lon ∧ lon < -130 then true   -- Alaska
  else if 42 < lat ∧ lat < 60 ∧ -140 < lon ∧ lon < -110 then true   -- W Canada/US
  else if 42 < lat ∧ lat < 70 ∧ -110 < lon ∧ lon < -52 then true    -- C/E Canada
  else if 32 < lat ∧ lat < 49 ∧ -125 < lon ∧ lon < -104 then true   -- Western US
  else if 25 < lat ∧ lat < 49 ∧ -104 < lon ∧ lon < -80 then true    -- Central US
  else if 25 < lat ∧ lat < 47 ∧ -80 < lon ∧ lon < -67 then true     -- Eastern US
  else if 24 < lat ∧ lat < 31 ∧ -88 < lon ∧ lon < -80 then true     -- Florida
  else if 14 < lat ∧ lat < 33 ∧ -118 < lon ∧ lon < -86 then true    -- Mexico
  else if 7 < lat ∧ lat < 18 ∧ -93 < lon ∧ lon < -77 then true      -- C America
  else if (10 < lat ∧ lat < 27 ∧ -85 < lon ∧ lon < -59) ∧
          (19.5 < lat ∧ lat < 23.5 ∧ -85 < lon ∧ lon < -74) then true  -- Cuba
  else if (10 < lat ∧ lat < 27 ∧ -85 < lon ∧ lon < -59) ∧
          (17.5 < lat ∧ lat < 20 ∧ -75 < lon ∧ lon < -68) then true    -- Hispaniola
  else if (10 < lat ∧ lat < 27 ∧ -85 < lon ∧ lon < -59) ∧
          (17.5 < lat ∧ lat < 18.7 ∧ -78.5 < lon ∧ lon < -76) then true -- Jamaica
  else if (10 < lat ∧ lat < 27 ∧ -85 < lon ∧ lon < -59) ∧
          (17.8 < lat ∧ lat < 18.6 ∧ -67.3 < lon ∧ lon < -65.2) then true -- PR
  else if -56 < lat ∧ lat < 13 ∧ -82 < lon ∧ lon < -34 then true    -- S America
  else if 55 < lat ∧ lat < 71 ∧ 4 < lon ∧ lon < 31 then true        -- Scandinavia
  else if 36 < lat ∧ lat < 55 ∧ -10 < lon ∧ lon < 15 then true      -- W Europe
  else if 40 < lat ∧ lat < 60 ∧ 12 < lon ∧ lon < 40 then true       -- C/E Europe
  else if 35 < lat ∧ lat < 47 ∧ -6 < lon ∧ lon < 37 then true       -- Mediterranean
  else if 15 < lat ∧ lat < 38 ∧ -18 < lon ∧ lon < 52 then true      -- N Africa
  else if -35 < lat ∧ lat < 20 ∧ -18 < lon ∧ lon < 52 then true     -- SubSaharan
  else if -26 < lat ∧ lat < -12 ∧ 43 < lon ∧ lon < 51 then true     -- Madagascar
  else if 12 < lat ∧ lat < 42 ∧ 34 < lon ∧ lon < 63 then true       -- Middle East
  else if 45 < lat ∧ lat < 78 ∧ 30 < lon ∧ lon < 70 then true       -- Russia W
  else if 50 < lat ∧ lat < 78 ∧ 70 < lon ∧ lon < 110 then true      -- Russia C
  else if 50 < lat ∧ lat < 75 ∧ 110 < lon ∧ lon < 180 then true     -- Russia E
  else if 35 < lat ∧ lat < 50 ∧ 45 < lon ∧ lon < 85 then true       -- C Asia
  else if 8 < lat ∧ lat < 37 ∧ 68 < lon ∧ lon < 97 then true        -- India
  else if 18 < lat ∧ lat < 54 ∧ 73 < lon ∧ lon < 135 then true      -- China
  else if 0 < lat ∧ lat < 28 ∧ 92 < lon ∧ lon < 110 then true       -- SE Asia
  else if (-11 < lat ∧ lat < 6 ∧ 95 < lon ∧ lon < 141) ∧
          (-6 < lat ∧ lat < 6 ∧ 95 < lon ∧ lon < 106) then true     -- Sumatra
  else if (-11 < lat ∧ lat < 6 ∧ 95 < lon ∧ lon < 141) ∧
          (-9 < lat ∧ lat < -6 ∧ 105 < lon ∧ lon < 115) then true   -- Java
  else if (-11 < lat ∧ lat < 6 ∧ 95 < lon ∧ lon < 141) ∧
          (-5 < lat ∧ lat < 8 ∧ 108 < lon ∧ lon < 120) then true    -- Borneo
  else if (-11 < lat ∧ lat < 6 ∧ 95 < lon ∧ lon < 141) ∧
          (-6 < lat ∧ lat < 2 ∧ 118 < lon ∧ lon < 126) then true    -- Sulawesi
  else if (-11 < lat ∧ lat < 6 ∧ 95 < lon ∧ lon < 141) ∧
          (-9 < lat ∧ lat < 0 ∧ 130 < lon ∧ lon < 141) then true    -- New Guinea
  else if 5 < lat ∧ lat < 19 ∧ 117 < lon ∧ lon < 127 then true      -- Philippines
  else if 30 < lat ∧ lat < 46 ∧ 129 < lon ∧ lon < 146 then true     -- Japan
  else if 21.5 < lat ∧ lat < 25.5 ∧ 120 < lon ∧ lon < 122 then true -- Taiwan
  else if 5.5 < lat ∧ lat < 10 ∧ 79.5 < lon ∧ lon < 82 then true    -- Sri Lanka
  else if -44 < lat ∧ lat < -10 ∧ 113 < lon ∧ lon < 154 then true   -- Australia
  else if -42 < lat ∧ lat < -34 ∧ 172 < lon ∧ lon < 179 then true   -- NZ North
  else if -47 < lat ∧ lat < -40 ∧ 166 < lon ∧ lon < 175 then true   -- NZ South
  else if 63 < lat ∧ lat < 67 ∧ -25 < lon ∧ lon < -13 then true     -- Iceland
  else if 50 < lat ∧ lat < 61 ∧ -11 < lon ∧ lon < 2 then true       -- Britain
  else if 59 < lat ∧ lat < 84 ∧ -75 < lon ∧ lon < -11 then true     -- Greenland
  else if 76 < lat ∧ lat < 81 ∧ 10 < lon ∧ lon < 34 then true       -- Svalbard
  else if 18.5 < lat ∧ lat < 22.5 ∧ -161 < lon ∧ lon < -154.5 then true -- Hawaii
  else if -23 < lat ∧ lat < -19.5 ∧ 163 < lon ∧ lon < 169 then true -- N Caledonia
  else false

/-- `is_land_detailed(lat, lon)` (generate_land_mask.py lines 59-245):
normalize the longitude with the two while-loops, then run the ordered
bounding-box checks. -/
def is_land_detailed (lat lon : ℚ) : Bool :=
  is_land_boxes lat (normalize_lon lon)

/-- One cell of the land mask produced by `fetch_land_mask`
(lines 42-54): cell `(y, x)` covers `lat = 90 - 2.5*y`,
`lon = 2.5*x` pre-normalized into `[-180, 180]` before the call. -/
def land_mask_cell (y x : ℕ) : Bool :=
  let lat : ℚ := 90 - (y : ℚ) * (5/2)
  let lon : ℚ := (x : ℚ) * (5/2)
  let lon_norm : ℚ := if lon ≤ 180 then lon else lon - 360
  is_land_detailed lat lon_norm

/-! ### The regridder of fetch_wavewatch3.py (`regrid_to_velocity_format`,
lines 197-289) -/

/-- The wave-data input of `regrid_to_velocity_format`: 2-D source arrays of
shape `rows × cols` (in the source, `rows = len(source_lats)` and
`cols = len(source_lons[0])`), a heights array whose entries may be NaN
(`none`), and an optional directions array.  Arrays are modelled as total
index functions, as numpy indexing within bounds never fails. -/
structure WaveData where
  rows : ℕ
  cols : ℕ
  lats : ℕ → ℕ → ℚ
  lons : ℕ → ℕ → ℚ
  heights : ℕ → ℕ → Option ℚ
  directions : Option (ℕ → ℕ → Option ℚ)

/-- Source-longitude normalization in the sample loop (lines 239-240):
`if src_lon > 180: src_lon -= 360`. -/
def srcLonNorm (l : ℚ) : ℚ := if l > 180 then l - 360 else l

/-- Longitude-difference wrap (lines 245-248): two sequential conditionals
mapping the difference to the shorter way around the circle. -/
def dlonWrap (d : ℚ) : ℚ :=
  let d1 := if d > 180 then d - 360 else d
  if d1 < -180 then d1 + 360 else d1

/-- Squared angular distance of source sample `(i, j)` from the target point,
exactly as computed in lines 235-250. -/
def distQ (wd : WaveData) (tlat tlon : ℚ) (c : ℕ × ℕ) : ℚ :=
  let src_lat := wd.lats c.1 c.2
  let src_lon := srcLonNorm (wd.lons c.1 c.2)
  let dlat := tlat - src_lat
  let dlon := dlonWrap (tlon - src_lon)
  dlat ^ 2 + dlon ^ 2

/-- The index window scanned by the sample loops (lines 233-234):
`range(max(0, n//2 - 5), min(n, n//2 + 5))`.  Natural-number truncated
subtraction realizes the `max 0`. -/
def windowRange (n : ℕ) : List ℕ :=
  List.range' (n / 2 - 5) (min n (n / 2 + 5) - (n / 2 - 5))

/-- The candidate indices `(i, j)` visited by the nested sample loops, in
iteration order (`i` outer and ascending, `j` inner and ascending).  The
window is centred on the middle of the source arrays and does not depend on
the target cell. -/
def candList (rows cols : ℕ) : List (ℕ × ℕ) :=
  (windowRange rows).flatMap fun i => (windowRange cols).map fun j => (i, j)

/-- State of the nearest-sample scan: `min_dist` (`none` = the initial
`float('inf')`), `nearest_height`, `nearest_dir` (both initially `0`). -/
structure SelState where
  minDist : Option ℚ
  h : Option ℚ
  d : Option ℚ
deriving DecidableEq

/-- `dist < min_dist` with `min_dist` possibly the initial infinity. -/
def ltInf (q : ℚ) : Option ℚ → Bool
  | none => true
  | some m => decide (q < m)

/-- One iteration of the sample loop (lines 235-256): compute the distance
and, when strictly smaller than the best so far, record this sample's height
and (when a directions array is present) its direction. -/
def stepSel (wd : WaveData) (tlat tlon : ℚ) (st : SelState) (c : ℕ × ℕ) : SelState :=
  if ltInf (distQ wd tlat tlon c) st.minDist then
    { minDist := some (distQ wd tlat tlon c)
      h := wd.heights c.1 c.2
      d := match wd.directions with
           | none => st.d
           | some ds => ds c.1 c.2 }
  else st

/-- Initial scan state (lines 228-230). -/
def initSel : SelState := ⟨none, some 0, some 0⟩

/-- The full nearest-sample scan for one target cell. -/
def selectCell (wd : WaveData) (tlat tlon : ℚ) : SelState :=
  (candList wd.rows wd.cols).foldl (stepSel wd tlat tlon) initSel

/-- The u/v formula shared by all fetchers (here lines 260-266):
`magnitude = height*0.5`, math angle `270 - direction`, degree-to-radian
conversion, then cosine/sine components. -/
noncomputable def uvFormula (h d : ℚ) : ℝ × ℝ :=
  ((h : ℝ) * 0.5 * Real.cos ((270 - (d : ℝ)) * (Real.pi / 180)),
   (h : ℝ) * 0.5 * Real.sin ((270 - (d : ℝ)) * (Real.pi / 180)))

/-- Conversion of the selected sample to the stored cell value
(lines 258-272): heights that are NaN or not positive give `(0, 0)`; a NaN
direction propagates through `cos`/`sin` into NaN components. -/
noncomputable def convertCell (nh nd : Option ℚ) : Option ℝ × Option ℝ :=
  match nh with
  | some h =>
    if 0 < h then
      match nd with
      | some d => (some (uvFormula h d).1, some (uvFormula h d).2)
      | none => (none, none)
    else (some 0, some 0)
  | none => (some 0, some 0)

/-- Latitude of the target row `y` (line 221): `la1 - y*dy`. -/
def targetLat (y : ℕ) : ℚ := 90 - (y : ℚ) * 2.5

/-- Longitude of the target column `x` (line 224): `lo1 + x*dx`. -/
def targetLon (x : ℕ) : ℚ := 0 + (x : ℚ) * 2.5

/-- The value stored for target cell `(y, x)`: scan, then convert. -/
noncomputable def cellAt (wd : WaveData) (y x : ℕ) : Option ℝ × Option ℝ :=
  let st := selectCell wd (targetLat y) (targetLon x)
  convertCell st.h st.d

/-- Output-grid geometry (lines 277-286). -/
structure VelocityHeader where
  dx : ℚ
  dy : ℚ
  nx : ℕ
  ny : ℕ
  la1 : ℚ
  la2 : ℚ
  lo1 : ℚ
  lo2 : ℚ
deriving DecidableEq

/-- The fixed header built by `regrid_to_velocity_format` (lines 206-212 and
277-286): 144 × 73 cells at 2.5°. -/
def ww3Header : VelocityHeader := ⟨2.5, 2.5, 144, 73, 90, -90, 0, 357.5⟩

/-- A velocity grid: header plus the two flat component lists. -/
structure VelocityData where
  header : VelocityHeader
  u_data : List (Option ℝ)
  v_data : List (Option ℝ)

/-- `regrid_to_velocity_format(wave_data)` (lines 197-289): for every target
cell in row-major order (rows north→south, columns west→east) append the
converted nearest-window-sample value.  The function takes no grid header —
the output geometry is the fixed `ww3Header` — and has no failure path. -/
noncomputable def regrid_to_velocity_format (wd : WaveData) : VelocityData :=
  { header := ww3Header
    u_data := (List.range 73).flatMap fun y =>
      (List.range 144).map fun x => (cellAt wd y x).1
    v_data := (List.range 73).flatMap fun y =>
      (List.range 144).map fun x => (cellAt wd y x).2 }

/-! ### The encoder (`save_to_json`, fetch_wavewatch3.py lines 292-331; the
same two-object structure is built in fetch_real_gfs.py and fetch_simple.py) -/

/-- Per-component wire header (lines 296-307). -/
structure VelocityItemHeader where
  parameterCategory : ℕ
  parameterNumber : ℕ
  dx : ℚ
  dy : ℚ
  nx : ℕ
  ny : ℕ
  la1 : ℚ
  la2 : ℚ
  lo1 : ℚ
  lo2 : ℚ
deriving DecidableEq

/-- One object of the emitted two-element array. -/
structure VelocityItem where
  header : VelocityItemHeader
  data : List (Option ℝ)

/-- The JSON value built by `save_to_json` (lines 294-325) before
serialization: u-component object with `parameterCategory 2` /
`parameterNumber 2` first, v-component object with `parameterNumber 3`
second, each carrying the grid's geometry and its flat data list. -/
def save_to_json (d : VelocityData) : List VelocityItem :=
  [ { header := { parameterCategory := 2, parameterNumber := 2
                  dx := d.header.dx, dy := d.header.dy
                  nx := d.header.nx, ny := d.header.ny
                  la1 := d.header.la1, la2 := d.header.la2
                  lo1 := d.header.lo1, lo2 := d.header.lo2 }
      data := d.u_data }
  , { header := { parameterCategory := 2, parameterNumber := 3
                  dx := d.header.dx, dy := d.header.dy
                  nx := d.header.nx, ny := d.header.ny
                  la1 := d.header.la1, la2 := d.header.la2
                  lo1 := d.header.lo1, lo2 := d.header.lo2 }
      data := d.v_data } ]

/-! ### The strided grid fill of fetch_real_gfs.py -/

/-- Python's built-in `round` (banker's rounding, half to even), as applied
to the exactly-representable quotients `y/step` in `find_nearest_sample`. -/
def pyRound (q : ℚ) : ℤ :=
  let f := ⌊q⌋
  let r := q - (f : ℚ)
  if r < 1/2 then f
  else if 1/2 < r then f + 1
  else if Even f then f else f + 1

/-- One sampled record (fetch_real_gfs.py lines 164-168): the fields
returned by `fetch_point_from_gfs`, each defaulted to `0` on a missing value
by the `or 0` guards, hence never NaN. -/
structure SampleR where
  wave_height : ℚ
  wave_direction : ℚ
  wave_period : ℚ
deriving DecidableEq

/-- `find_nearest_sample(y, x, sampled_data, step)` (lines 174-184): round
each index to the nearest stride multiple, clamp into `[0,72] × [0,143]`,
and look the key up (`dict.get`, `none` when absent).  Total for all integer
inputs. -/
def find_nearest_sample (y x : ℤ) (sampled_data : ℤ × ℤ → Option SampleR)
    (step : ℤ) : Option SampleR :=
  let y_sample := pyRound ((y : ℚ) / (step : ℚ)) * step
  let x_sample := pyRound ((x : ℚ) / (step : ℚ)) * step
  let y_clamped := max 0 (min 72 y_sample)
  let x_clamped := max 0 (min 143 x_sample)
  sampled_data (y_clamped, x_clamped)

/-- The per-cell conversion of the fill loop (lines 110-128): the nearest
sampled record's direction/height through the shared u/v formula, or
`(0.0, 0.0)` when no sample was found. -/
noncomputable def realGfsCell (sampled_data : ℤ × ℤ → Option SampleR)
    (y x : ℕ) : ℝ × ℝ :=
  match find_nearest_sample y x sampled_data 4 with
  | some data => uvFormula data.wave_height data.wave_direction
  | none => (0, 0)

/-- The pure grid-filling part of `fetch_gfs_wave_grid_simple`
(lines 50-143): the sampling loop's network I/O is abstracted into the
`sampled_data` map it populates; its keys are the stride-4 grid indices
`y ∈ {0,4,…,72}`, `x ∈ {0,4,…,140}` for which a fetch succeeded.  The fill
loop then builds the same fixed 144 × 73 grid row-major. -/
noncomputable def fetch_gfs_wave_grid_simple
    (sampled_data : ℤ × ℤ → Option SampleR) : VelocityData :=
  { header := ww3Header
    u_data := (List.range 73).flatMap fun y =>
      (List.range 144).map fun x => some (realGfsCell sampled_data y x).1
    v_data := (List.range 73).flatMap fun y =>
      (List.range 144).map fun x => some (realGfsCell sampled_data y x).2 }

/-- The stride pattern of the sampling loops (lines 72-86): any key held by
`sampled_data` is a multiple of `4` with `0 ≤ y ≤ 72` and `0 ≤ x ≤ 140`. -/
def SampledKeys (sampled_data : ℤ × ℤ → Option SampleR) : Prop :=
  ∀ k : ℤ × ℤ, sampled_data k ≠ none →
    4 ∣ k.1 ∧ 0 ≤ k.1 ∧ k.1 ≤ 72 ∧ 4 ∣ k.2 ∧ 0 ≤ k.2 ∧ k.2 ≤ 140

/-! ### Concrete fixtures are defined below; all theorems follow the definitions. -/

/-- The `argmin`-keeping-first fold underlying the nearest-sample scans. -/
def argminFirst {α : Type} (dist : α → ℚ) (a : α) (L : List α) : α :=
  L.foldl (fun acc c => if dist c < dist acc then c else acc) a

/-- The scan state recording candidate `c` as current nearest. -/
def selOf (wd : WaveData) (tlat tlon : ℚ) (c : ℕ × ℕ) : SelState :=
  { minDist := some (distQ wd tlat tlon c)
    h := wd.heights c.1 c.2
    d := match wd.directions with
         | none => some 0
         | some ds => ds c.1 c.2 }

/-! ### Concrete fixtures used by the closed evaluation theorems -/

/-- Wave data with empty source arrays (`rows = cols = 0`): the sample loops
run zero iterations for every cell. -/
def emptyWD : WaveData :=
  { rows := 0, cols := 0, lats := fun _ _ => 0, lons := fun _ _ => 0
    heights := fun _ _ => none, directions := none }

/-- Wave data with a single sample at `(lat, lon) = (0, 0)` carrying height
`2` m and direction `0°`. -/
def wd1 : WaveData :=
  { rows := 1, cols := 1, lats := fun _ _ => 0, lons := fun _ _ => 0
    heights := fun _ _ => some 2, directions := some fun _ _ => some 0 }

/-- Wave data (12 rows × 1 column) whose sample `(0,0)` sits exactly on the
north-pole cell centre `(90, 0)` with height `7`, while every other sample
sits at `(0, 0)` with height `2`.  The centre window of the scan covers rows
1-10 only, so the genuinely nearest sample at row 0 is never examined. -/
def wdC4 : WaveData :=
  { rows := 12, cols := 1
    lats := fun i _ => if i = 0 then 90 else 0
    lons := fun _ _ => 0
    heights := fun i _ => if i = 0 then some 7 else some 2
    directions := some fun _ _ => some 0 }

/-- Wave data (12 rows × 1 column) with two samples equidistant from the
cell centre `(90, 0)`: sample `(0,0)` at latitude 89 (height 7, first in the
input sequence) and sample `(1,0)` at latitude 91 (height 2); the remaining
samples are far away. -/
def wdC8 : WaveData :=
  { rows := 12, cols := 1
    lats := fun i _ => if i = 0 then 89 else if i = 1 then 91 else 0
    lons := fun _ _ => 0
    heights := fun i _ => if i = 0 then some 7 else if i = 1 then some 2 else some 1
    directions := some fun _ _ => some 0 }

/-- A small velocity grid (2 × 1 cells) for exercising the encoder. -/
def encDemo : VelocityData :=
  { header := { dx := 1, dy := 1, nx := 2, ny := 1, la1 := 0, la2 := 0, lo1 := 0, lo2 := 1 }
    u_data := [some 1, some 2], v_data := [some 3, some 4] }

/-- A strided-sampling map holding no samples at all (every fetch failed). -/
def noSamples : ℤ × ℤ → Option SampleR := fun _ => none

/-! ### Longitude-normalization lemmas -/

/-- The first while-loop leaves any longitude already `≤ 180` unchanged and
always terminates at a value `≤ 180`. -/
theorem normHigh_le (lon : ℚ) : normHigh lon ≤ 180 := by
  induction lon using normHigh.induct with
  | case1 lon h ih => rw [normHigh]; simpa [h] using ih
  | case2 lon h => rw [normHigh]; simpa [h] using not_lt.mp h

/-- The second while-loop always terminates at a value `≥ -180`. -/
theorem normLow_ge (lon : ℚ) : -180 ≤ normLow lon := by
  induction lon using normLow.induct with
  | case1 lon h ih => rw [normLow]; simpa [h] using ih
  | case2 lon h => rw [normLow]; simpa [h] using not_lt.mp h

/-- The second while-loop preserves the upper bound established by the first. -/
theorem normLow_le (lon : ℚ) (h : lon ≤ 180) : normLow lon ≤ 180 := by
  induction lon using normLow.induct with
  | case1 lon hl ih => rw [normLow]; simp only [hl, if_true]; exact ih (by linarith)
  | case2 lon hl => rw [normLow]; simpa [hl] using h

/-- Longitudes not above 180 pass through the first loop unchanged. -/
theorem normHigh_of_le {lon : ℚ} (h : lon ≤ 180) : normHigh lon = lon := by
  rw [normHigh]; simp [not_lt.mpr h]

/-- Longitudes not below -180 pass through the second loop unchanged. -/
theorem normLow_of_ge {lon : ℚ} (h : -180 ≤ lon) : normLow lon = lon := by
  rw [normLow]; simp [not_lt.mpr h]

/-- In-range longitudes are unchanged by the full normalization. -/
theorem normalize_lon_of_mem {lon : ℚ} (h1 : -180 ≤ lon) (h2 : lon ≤ 180) :
    normalize_lon lon = lon := by
  rw [normalize_lon, normHigh_of_le h2, normLow_of_ge h1]

/-! ### Generic lemmas: flat row-major indexing and the strict-less fold -/

/-- Indexing a flat row-major concatenation of equal-length rows. -/
theorem flatMap_rows_getElem? {α : Type} (g : ℕ → List α) (nx : ℕ)
    (hg : ∀ y, (g y).length = nx) :
    ∀ (Y : List ℕ) (k x : ℕ), k < Y.length → x < nx →
      (Y.flatMap g)[k * nx + x]? = (g (Y.getD k 0))[x]? := by
  intro Y
  induction Y with
  | nil => intro k x hk _; simp at hk
  | cons y Y ih =>
    intro k x hk hx
    cases k with
    | zero =>
      simp only [List.flatMap_cons, List.getD_cons_zero, Nat.zero_mul, Nat.zero_add]
      rw [List.getElem?_append, hg y]
      simp [hx]
    | succ k =>
      simp only [List.flatMap_cons, List.getD_cons_succ]
      rw [List.getElem?_append_right (by rw [hg y]; nlinarith [Nat.succ_mul k nx])]
      rw [hg y]
      have he : (k + 1) * nx + x - nx = k * nx + x := by
        rw [Nat.succ_mul]; omega
      rw [he]
      exact ih k x (Nat.lt_of_succ_lt_succ hk) hx

/-- Indexing the row-major grid built from ranges. -/
theorem grid_getElem? {α : Type} (f : ℕ → ℕ → α) (ny nx y x : ℕ)
    (hy : y < ny) (hx : x < nx) :
    ((List.range ny).flatMap fun y' => (List.range nx).map fun x' => f y' x')[y * nx + x]? =
      some (f y x) := by
  rw [flatMap_rows_getElem? _ nx (by intro y'; simp) (List.range ny) y x
      (by simpa using hy) hx]
  rw [List.getD_eq_getElem?_getD, List.getElem?_range hy]
  simp [List.getElem?_map, List.getElem?_range hx]

/-- Length of the row-major grid. -/
theorem grid_length {α : Type} (f : ℕ → ℕ → α) (ny nx : ℕ) :
    ((List.range ny).flatMap fun y' => (List.range nx).map fun x' => f y' x').length =
      ny * nx := by
  rw [List.length_flatMap]
  rw [show (List.map (List.length ∘ fun y' => (List.range nx).map fun x' => f y' x')
        (List.range ny)) = List.map (fun _ => nx) (List.range ny) by
    apply List.map_congr_left; intro y' _; simp]
  rw [List.map_const', List.sum_replicate, List.length_range, smul_eq_mul]

theorem argminFirst_nil {α : Type} (dist : α → ℚ) (a : α) :
    argminFirst dist a [] = a := rfl

theorem argminFirst_cons {α : Type} (dist : α → ℚ) (a c : α) (L : List α) :
    argminFirst dist a (c :: L) =
      argminFirst dist (if dist c < dist a then c else a) L := rfl

/-- The fold's result is one of the scanned elements. -/
theorem argminFirst_mem {α : Type} (dist : α → ℚ) (a : α) (L : List α) :
    argminFirst dist a L ∈ a :: L := by
  induction L generalizing a with
  | nil => simp [argminFirst_nil]
  | cons c L ih =>
    rw [argminFirst_cons]
    by_cases hca : dist c < dist a
    · rw [if_pos hca]
      rcases List.mem_cons.mp (ih c) with h | h
      · simp [h]
      · simp [h]
    · rw [if_neg hca]
      rcases List.mem_cons.mp (ih a) with h | h
      · simp [h]
      · simp [h]

/-- The fold's result minimizes the distance over the scanned elements. -/
theorem argminFirst_le {α : Type} (dist : α → ℚ) (a : α) (L : List α) :
    ∀ c ∈ a :: L, dist (argminFirst dist a L) ≤ dist c := by
  induction L generalizing a with
  | nil =>
    intro c hc
    simp only [List.mem_singleton] at hc
    subst hc
    simp [argminFirst_nil]
  | cons c L ih =>
    intro c' hc'
    rw [argminFirst_cons]
    by_cases hca : dist c < dist a
    · rw [if_pos hca]
      rcases List.mem_cons.mp hc' with h | h
      · rw [h]
        exact le_trans (ih c c (List.mem_cons_self c L)) (le_of_lt hca)
      · exact ih c c' h
    · rw [if_neg hca]
      rcases List.mem_cons.mp hc' with h | h
      · rw [h]
        exact ih a a (List.mem_cons_self a L)
      · rcases List.mem_cons.mp h with h2 | h2
        · rw [h2]
          exact le_trans (ih a a (List.mem_cons_self a L)) (not_lt.mp hca)
        · exact ih a c' (List.mem_cons_of_mem a h2)

/-- The fold's result is the FIRST minimizer in scan order: every earlier
element has strictly larger distance. -/
theorem argminFirst_first {α : Type} (dist : α → ℚ) (a : α) (L : List α) :
    ∃ k, ∃ hk : k < (a :: L).length,
      argminFirst dist a L = (a :: L).get ⟨k, hk⟩ ∧
      ∀ j, ∀ hj : j < (a :: L).length, j < k →
        dist (argminFirst dist a L) < dist ((a :: L).get ⟨j, hj⟩) := by
  induction L generalizing a with
  | nil =>
    exact ⟨0, by simp, by simp [argminFirst_nil], by omega⟩
  | cons c L ih =>
    rw [argminFirst_cons]
    by_cases hca : dist c < dist a
    · rw [if_pos hca]
      obtain ⟨k', hk', heq, hstrict⟩ := ih c
      refine ⟨k' + 1, by simpa using hk', by simpa using heq, ?_⟩
      intro j hj hjk
      cases j with
      | zero =>
        have hle : dist (argminFirst dist c L) ≤ dist c :=
          argminFirst_le dist c L c (List.mem_cons_self c L)
        simpa using lt_of_le_of_lt hle hca
      | succ j =>
        have := hstrict j (by simpa using hj) (by omega)
        simpa using this
    · rw [if_neg hca]
      obtain ⟨k', hk', heq, hstrict⟩ := ih a
      cases k' with
      | zero =>
        refine ⟨0, by simp, by simpa using heq, by omega⟩
      | succ k'' =>
        refine ⟨k'' + 2, by simp at hk' ⊢; omega, by simpa using heq, ?_⟩
        intro j hj hjk
        cases j with
        | zero =>
          have := hstrict 0 (by simp) (by omega)
          simpa using this
        | succ j =>
          cases j with
          | zero =>
            have h0 := hstrict 0 (by simp) (by omega)
            have h1 : dist (argminFirst dist a L) < dist a := by simpa using h0
            simpa using lt_of_lt_of_le h1 (not_lt.mp hca)
          | succ j =>
            have := hstrict (j + 1) (by simp at hj ⊢; omega) (by omega)
            simpa using this

/-- One scan step starting from a recorded candidate keeps the closer of the
two (strictly: ties keep the incumbent). -/
theorem stepSel_selOf (wd : WaveData) (tlat tlon : ℚ) (a c : ℕ × ℕ) :
    stepSel wd tlat tlon (selOf wd tlat tlon a) c =
      selOf wd tlat tlon
        (if distQ wd tlat tlon c < distQ wd tlat tlon a then c else a) := by
  by_cases h : distQ wd tlat tlon c < distQ wd tlat tlon a
  · cases hd : wd.directions with
    | none => simp [stepSel, selOf, ltInf, h, hd]
    | some ds => simp [stepSel, selOf, ltInf, h, hd]
  · simp [stepSel, selOf, ltInf, h]

/-- Folding the scan from a recorded candidate computes the
first-minimizer fold. -/
theorem foldl_stepSel_eq (wd : WaveData) (tlat tlon : ℚ) (L : List (ℕ × ℕ)) :
    ∀ a : ℕ × ℕ,
      L.foldl (stepSel wd tlat tlon) (selOf wd tlat tlon a) =
        selOf wd tlat tlon (argminFirst (distQ wd tlat tlon) a L) := by
  induction L with
  | nil => intro a; simp [argminFirst_nil]
  | cons c L ih =>
    intro a
    rw [List.foldl_cons, stepSel_selOf, argminFirst_cons]
    exact ih _

/-- The first candidate always replaces the initial infinite-distance
state. -/
theorem stepSel_init (wd : WaveData) (tlat tlon : ℚ) (c : ℕ × ℕ) :
    stepSel wd tlat tlon initSel c = selOf wd tlat tlon c := by
  simp [stepSel, initSel, selOf, ltInf]

/-- With a nonempty candidate window, the scan returns the state of the
first minimizer of the window. -/
theorem selectCell_eq (wd : WaveData) (tlat tlon : ℚ) (c : ℕ × ℕ)
    (R : List (ℕ × ℕ)) (hc : candList wd.rows wd.cols = c :: R) :
    selectCell wd tlat tlon =
      selOf wd tlat tlon (argminFirst (distQ wd tlat tlon) c R) := by
  rw [selectCell, hc, List.foldl_cons, stepSel_init]
  exact foldl_stepSel_eq wd tlat tlon R c

/-- With an empty candidate window, the scan returns the initial state. -/
theorem selectCell_empty (wd : WaveData) (tlat tlon : ℚ)
    (hc : candList wd.rows wd.cols = []) :
    selectCell wd tlat tlon = initSel := by
  rw [selectCell, hc]; rfl

/-- The initial state converts to the zero vector. -/
theorem convertCell_init : convertCell initSel.h initSel.d = (some 0, some 0) := by
  simp [convertCell, initSel]

/-! ### Trigonometric evaluations of the conversion formula -/

theorem cos_deg270 : Real.cos ((270 : ℝ) * (Real.pi / 180)) = 0 := by
  rw [show (270 : ℝ) * (Real.pi / 180) = Real.pi + Real.pi / 2 by ring,
    Real.cos_add, Real.cos_pi, Real.sin_pi, Real.cos_pi_div_two, Real.sin_pi_div_two]
  ring

theorem sin_deg270 : Real.sin ((270 : ℝ) * (Real.pi / 180)) = -1 := by
  rw [show (270 : ℝ) * (Real.pi / 180) = Real.pi + Real.pi / 2 by ring,
    Real.sin_add, Real.cos_pi, Real.sin_pi, Real.cos_pi_div_two, Real.sin_pi_div_two]
  ring

theorem uvFormula_2_0 : uvFormula 2 0 = (0, -1) := by
  unfold uvFormula
  rw [show ((270 : ℝ) - ((0 : ℚ) : ℝ)) * (Real.pi / 180) =
      (270 : ℝ) * (Real.pi / 180) by push_cast; ring]
  rw [cos_deg270, sin_deg270]
  norm_num

/-- Flat-index access to the regridded u component. -/
theorem regrid_u_get (wd : WaveData) (y x : ℕ) (hy : y < 73) (hx : x < 144) :
    (regrid_to_velocity_format wd).u_data[y * 144 + x]? = some ((cellAt wd y x).1) :=
  grid_getElem? (fun y' x' => (cellAt wd y' x').1) 73 144 y x hy hx

/-- Flat-index access to the regridded v component. -/
theorem regrid_v_get (wd : WaveData) (y x : ℕ) (hy : y < 73) (hx : x < 144) :
    (regrid_to_velocity_format wd).v_data[y * 144 + x]? = some ((cellAt wd y x).2) :=
  grid_getElem? (fun y' x' => (cellAt wd y' x').2) 73 144 y x hy hx

/-- The single-sample fixture recommends its sample everywhere: the scan
returns height 2, direction 0. -/
theorem selectCell_wd1 (tlat tlon : ℚ) :
    selectCell wd1 tlat tlon = selOf wd1 tlat tlon (0, 0) := by
  rw [selectCell_eq wd1 tlat tlon (0, 0) [] (by rfl), argminFirst_nil]

theorem cellAt_wd1 (y x : ℕ) : cellAt wd1 y x = (some 0, some (-1)) := by
  rw [cellAt]
  rw [selectCell_wd1]
  simp only [selOf, wd1]
  rw [convertCell]
  simp [uvFormula_2_0]

theorem targetLat_46 : targetLat 46 = -25 := by norm_num [targetLat]

theorem targetLon_54 : targetLon 54 = 135 := by norm_num [targetLon]

theorem is_land_at_australia : is_land_detailed (-25) 135 = true := by
  rw [is_land_detailed, normalize_lon_of_mem (by norm_num) (by norm_num)]
  norm_num [is_land_boxes]

theorem land_mask_cell_46_54 : land_mask_cell 46 54 = true := by
  rw [land_mask_cell]
  norm_num
  exact is_land_at_australia

theorem cos_deg180 : Real.cos ((180 : ℝ) * (Real.pi / 180)) = -1 := by
  rw [show (180 : ℝ) * (Real.pi / 180) = Real.pi by ring, Real.cos_pi]

theorem sin_deg180 : Real.sin ((180 : ℝ) * (Real.pi / 180)) = 0 := by
  rw [show (180 : ℝ) * (Real.pi / 180) = Real.pi by ring, Real.sin_pi]

theorem cos_deg90 : Real.cos ((90 : ℝ) * (Real.pi / 180)) = 0 := by
  rw [show (90 : ℝ) * (Real.pi / 180) = Real.pi / 2 by ring, Real.cos_pi_div_two]

theorem sin_deg90 : Real.sin ((90 : ℝ) * (Real.pi / 180)) = 1 := by
  rw [show (90 : ℝ) * (Real.pi / 180) = Real.pi / 2 by ring, Real.sin_pi_div_two]

/-- C5: for every direction `d` and height `h`, `wave_to_uv(d, h)` equals the
specification's formula `(m·cos(radians(270-d)), m·sin(radians(270-d)))` with
`m = 0.5·h`, and the formula's exact values are produced at the four cardinal
directions for height 2 (e.g. `d = 0, h = 2` gives `(0, -1)`). -/
theorem C5_conversion_formula :
    (∀ d h : ℝ, wave_to_uv (some d) (some h) =
      (some (toVector_spec d h).1, some (toVector_spec d h).2)) ∧
    wave_to_uv (some 0) (some 2) = (some 0, some (-1)) ∧
    wave_to_uv (some 90) (some 2) = (some (-1), some 0) ∧
    wave_to_uv (some 180) (some 2) = (some 0, some 1) ∧
    wave_to_uv (some 270) (some 2) = (some 1, some 0) := by
  refine ⟨?_, ?_, ?_, ?_, ?_⟩
  · intro d h
    simp [wave_to_uv, fsub, fmul, fcos, fsin, toVector_spec]
  · simp only [wave_to_uv, fsub, fmul, fcos, fsin]
    rw [show ((270 : ℝ) - 0) = 270 by norm_num, cos_deg270, sin_deg270]
    norm_num
  · simp only [wave_to_uv, fsub, fmul, fcos, fsin]
    rw [show ((270 : ℝ) - 90) = 180 by norm_num, cos_deg180, sin_deg180]
    norm_num
  · simp only [wave_to_uv, fsub, fmul, fcos, fsin]
    rw [show ((270 : ℝ) - 180) = 90 by norm_num, cos_deg90, sin_deg90]
    norm_num
  · simp only [wave_to_uv, fsub, fmul, fcos, fsin]
    rw [show ((270 : ℝ) - 270) = 0 by norm_num]
    rw [show ((0 : ℝ) * (Real.pi / 180)) = 0 by ring]
    rw [Real.cos_zero, Real.sin_zero]
    norm_num

/-- C2 (counterexample): `wave_to_uv` itself does NOT map NaN inputs to
`(0,0)` — a NaN direction or height propagates through the arithmetic and
yields NaN components, exactly as IEEE arithmetic does in the source. -/
theorem C2_counterexample :
    wave_to_uv none (some 5) = (none, none) ∧
    wave_to_uv (some 10) none = (none, none) ∧
    wave_to_uv none (some 5) ≠ (some 0, some 0) ∧
    wave_to_uv (some 10) none ≠ (some 0, some 0) := by
  refine ⟨?_, ?_, ?_, ?_⟩ <;> simp [wave_to_uv, fsub, fmul, fcos, fsin]

/-- C2 (amended): NaN containment lives in the caller, not in `wave_to_uv`:
the per-cell conversion of `convert_to_leaflet_format` emits `(0.0, 0.0)` for
any cell whose height or direction is NaN, without invoking `wave_to_uv`, so
NaN never reaches the grid. -/
theorem C2_nan_contained_in_caller :
    (∀ h d : Option ℝ, h = none ∨ d = none → leaflet_cell h d = (some 0, some 0)) ∧
    leaflet_cell (some 5) none = (some 0, some 0) ∧
    leaflet_cell none (some 10) = (some 0, some 0) := by
  refine ⟨?_, ?_, ?_⟩
  · rintro h d (rfl | rfl) <;> simp [leaflet_cell, fisnan]
  · simp [leaflet_cell, fisnan]
  · simp [leaflet_cell, fisnan]

/-- C2 witness: the amended containment theorem applied at a concrete NaN
direction. -/
theorem C2_witness :
    ((some (5 : ℝ) : Option ℝ) = none ∨ (none : Option ℝ) = none) ∧
    leaflet_cell (some 5) none = (some 0, some 0) :=
  ⟨Or.inr rfl, C2_nan_contained_in_caller.1 (some 5) none (Or.inr rfl)⟩

/-- C9: `is_land_detailed` is a total, terminating, pure function: the two
longitude-normalization loops satisfy their defining step/exit equations and
always terminate at a value in `[-180, 180]`, after which the result is the
boolean produced by the ordered bounding-box chain on the normalized
longitude.  (Determinism and absence of I/O are inherent: the embedding is a
function of its arguments only.) -/
theorem C9_is_land_total :
    (∀ lon : ℚ, lon > 180 → normHigh lon = normHigh (lon - 360)) ∧
    (∀ lon : ℚ, lon ≤ 180 → normHigh lon = lon) ∧
    (∀ lon : ℚ, lon < -180 → normLow lon = normLow (lon + 360)) ∧
    (∀ lon : ℚ, -180 ≤ lon → normLow lon = lon) ∧
    (∀ lon : ℚ, -180 ≤ normalize_lon lon ∧ normalize_lon lon ≤ 180) ∧
    (∀ lat lon : ℚ, is_land_detailed lat lon = is_land_boxes lat (normalize_lon lon)) := by
  refine ⟨?_, ?_, ?_, ?_, ?_, ?_⟩
  · intro lon h; rw [normHigh]; rw [dif_pos h]
  · intro lon h; exact normHigh_of_le h
  · intro lon h; rw [normLow]; rw [dif_pos h]
  · intro lon h; exact normLow_of_ge h
  · intro lon; exact ⟨normLow_ge _, normLow_le _ (normHigh_le lon)⟩
  · intro lat lon; rfl

/-- C9 witness: the loop equations and bounds evaluated at longitude 500. -/
theorem C9_witness :
    ((500 : ℚ) > 180 ∧ normHigh 500 = normHigh (500 - 360)) ∧
    (-180 ≤ normalize_lon 500 ∧ normalize_lon 500 ≤ 180) :=
  ⟨⟨by norm_num, C9_is_land_total.1 500 (by norm_num)⟩, C9_is_land_total.2.2.2.2.1 500⟩

/-- C1 (counterexample): the regridder never consults the land mask.  Grid
cell `(y, x) = (46, 54)` has centre `(-25°, 135°)` — central Australia, which
`is_land_detailed` classifies as land — yet with a single positive-height
sample the regrid stores `(0, -1)` there, not `(0, 0)`. -/
theorem C1_counterexample :
    land_mask_cell 46 54 = true ∧
    is_land_detailed (targetLat 46) (targetLon 54) = true ∧
    (regrid_to_velocity_format wd1).v_data[46 * 144 + 54]? =
      (some (some (-1 : ℝ)) : Option (Option ℝ)) ∧
    (some (some (-1 : ℝ)) : Option (Option ℝ)) ≠ some (some 0) := by
  refine ⟨land_mask_cell_46_54, ?_, ?_, by simp⟩
  · rw [targetLat_46, targetLon_54]; exact is_land_at_australia
  · rw [regrid_v_get wd1 46 54 (by norm_num) (by norm_num), cellAt_wd1]

/-- C1 (amended): the regrid applies the same nearest-window-sample rule to
every cell; in particular cells whose centre the land mask classifies as
land receive the sample-derived value, not an unconditional `(0,0)` — the
land mask is generated and saved by generate_land_mask.py but never read by
the regridding code. -/
theorem C1_land_cells_not_zeroed (wd : WaveData) (y x : ℕ)
    (hy : y < 73) (hx : x < 144)
    (_hland : is_land_detailed (targetLat y) (targetLon x) = true) :
    (regrid_to_velocity_format wd).u_data[y * 144 + x]? = some ((cellAt wd y x).1) ∧
    (regrid_to_velocity_format wd).v_data[y * 144 + x]? = some ((cellAt wd y x).2) :=
  ⟨regrid_u_get wd y x hy hx, regrid_v_get wd y x hy hx⟩

/-- C1 witness: the amended theorem applied at the Australian land cell. -/
theorem C1_witness :
    ((46 : ℕ) < 73 ∧ (54 : ℕ) < 144 ∧
      is_land_detailed (targetLat 46) (targetLon 54) = true) ∧
    (regrid_to_velocity_format wd1).v_data[46 * 144 + 54]? =
      some ((cellAt wd1 46 54).2) :=
  ⟨⟨by norm_num, by norm_num,
      by rw [targetLat_46, targetLon_54]; exact is_land_at_australia⟩,
    (C1_land_cells_not_zeroed wd1 46 54 (by norm_num) (by norm_num)
      (by rw [targetLat_46, targetLon_54]; exact is_land_at_australia)).2⟩

/-- A flat grid of identical rows is a replicate. -/
theorem flatMap_const_replicate {α : Type} (Y : List ℕ) (n : ℕ) (c : α) :
    (Y.flatMap fun _ => List.replicate n c) = List.replicate (Y.length * n) c := by
  induction Y with
  | nil => simp
  | cons y Y ih =>
    rw [List.flatMap_cons, ih, List.length_cons, Nat.succ_mul, Nat.add_comm,
      List.replicate_add]

/-- A pointwise-constant grid is a replicate. -/
theorem grid_const {α : Type} (f : ℕ → ℕ → α) (c : α) (ny nx : ℕ)
    (hf : ∀ y x, f y x = c) :
    ((List.range ny).flatMap fun y => (List.range nx).map fun x => f y x) =
      List.replicate (ny * nx) c := by
  have hrow : ∀ y, ((List.range nx).map fun x => f y x) = List.replicate nx c := by
    intro y
    rw [List.map_congr_left fun x _ => hf y x, List.map_const', List.length_range]
  calc ((List.range ny).flatMap fun y => (List.range nx).map fun x => f y x)
      = (List.range ny).flatMap fun _ => List.replicate nx c := by
        exact List.flatMap_congr fun y _ => hrow y
    _ = List.replicate (ny * nx) c := by
        rw [flatMap_const_replicate, List.length_range]

/-- With empty source arrays the candidate window is empty and every cell
converts the initial state to zero. -/
theorem cellAt_empty (y x : ℕ) : cellAt emptyWD y x = (some 0, some 0) := by
  rw [cellAt, selectCell_empty emptyWD _ _ (by rfl)]
  exact convertCell_init

/-- C3 (counterexample): the regridding operation cannot reject anything:
it takes no grid header (the output header is the fixed 144 × 73 one,
`nx·ny = 10512 ≠ 0`) and has no error path — even for completely empty
source arrays it silently returns a full all-zero grid instead of raising
any `InvalidGridError` (no such error exists anywhere in the code). -/
theorem C3_counterexample :
    (regrid_to_velocity_format emptyWD).header.nx = 144 ∧
    (regrid_to_velocity_format emptyWD).header.ny = 73 ∧
    (regrid_to_velocity_format emptyWD).header.nx *
      (regrid_to_velocity_format emptyWD).header.ny = 10512 ∧
    (regrid_to_velocity_format emptyWD).u_data =
      List.replicate 10512 (some (0 : ℝ)) ∧
    (regrid_to_velocity_format emptyWD).v_data =
      List.replicate 10512 (some (0 : ℝ)) := by
  refine ⟨rfl, rfl, rfl, ?_, ?_⟩
  · show ((List.range 73).flatMap fun y =>
        (List.range 144).map fun x => (cellAt emptyWD y x).1) = _
    rw [grid_const _ (some (0 : ℝ)) 73 144 fun y x => by rw [cellAt_empty]]
  · show ((List.range 73).flatMap fun y =>
        (List.range 144).map fun x => (cellAt emptyWD y x).2) = _
    rw [grid_const _ (some (0 : ℝ)) 73 144 fun y x => by rw [cellAt_empty]]

/-- C3 (amended): the regridding operation never raises for any input —
it is a total function whose output header is always the fixed 144 × 73 one
(`nx·ny = 10512 > 0`) and whose component lists always have 10512 entries;
no zero-cell header can occur and no `InvalidGridError` exists. -/
theorem C3_regrid_total (wd : WaveData) :
    (regrid_to_velocity_format wd).header = ww3Header ∧
    (regrid_to_velocity_format wd).header.nx *
      (regrid_to_velocity_format wd).header.ny = 10512 ∧
    (regrid_to_velocity_format wd).u_data.length = 10512 ∧
    (regrid_to_velocity_format wd).v_data.length = 10512 := by
  refine ⟨rfl, rfl, ?_, ?_⟩
  · show ((List.range 73).flatMap fun y =>
        (List.range 144).map fun x => (cellAt wd y x).1).length = 10512
    rw [grid_length]
  · show ((List.range 73).flatMap fun y =>
        (List.range 144).map fun x => (cellAt wd y x).2).length = 10512
    rw [grid_length]

/-- C7: every regrid call returns flat component lists of length
`nx·ny` (= 144·73 = 10512), with the value of cell `(y, x)` stored at the
flat index `y·nx + x`; this holds for the WAVEWATCH III regridder and for
the strided fill of fetch_real_gfs.py. -/
theorem C7_grid_shape (wd : WaveData) (sampled : ℤ × ℤ → Option SampleR) :
    (regrid_to_velocity_format wd).u_data.length =
      (regrid_to_velocity_format wd).header.nx *
        (regrid_to_velocity_format wd).header.ny ∧
    (regrid_to_velocity_format wd).v_data.length =
      (regrid_to_velocity_format wd).header.nx *
        (regrid_to_velocity_format wd).header.ny ∧
    (∀ y x : ℕ, y < 73 → x < 144 →
      (regrid_to_velocity_format wd).u_data[y * 144 + x]? =
        some ((cellAt wd y x).1) ∧
      (regrid_to_velocity_format wd).v_data[y * 144 + x]? =
        some ((cellAt wd y x).2)) ∧
    (fetch_gfs_wave_grid_simple sampled).u_data.length =
      (fetch_gfs_wave_grid_simple sampled).header.nx *
        (fetch_gfs_wave_grid_simple sampled).header.ny ∧
    (fetch_gfs_wave_grid_simple sampled).v_data.length =
      (fetch_gfs_wave_grid_simple sampled).header.nx *
        (fetch_gfs_wave_grid_simple sampled).header.ny ∧
    (∀ y x : ℕ, y < 73 → x < 144 →
      (fetch_gfs_wave_grid_simple sampled).u_data[y * 144 + x]? =
        some (some (realGfsCell sampled y x).1) ∧
      (fetch_gfs_wave_grid_simple sampled).v_data[y * 144 + x]? =
        some (some (realGfsCell sampled y x).2)) := by
  refine ⟨?_, ?_, ?_, ?_, ?_, ?_⟩
  · show ((List.range 73).flatMap fun y =>
        (List.range 144).map fun x => (cellAt wd y x).1).length = 144 * 73
    rw [grid_length]
  · show ((List.range 73).flatMap fun y =>
        (List.range 144).map fun x => (cellAt wd y x).2).length = 144 * 73
    rw [grid_length]
  · intro y x hy hx
    exact ⟨regrid_u_get wd y x hy hx, regrid_v_get wd y x hy hx⟩
  · show ((List.range 73).flatMap fun y =>
        (List.range 144).map fun x => some (realGfsCell sampled y x).1).length = 144 * 73
    rw [grid_length]
  · show ((List.range 73).flatMap fun y =>
        (List.range 144).map fun x => some (realGfsCell sampled y x).2).length = 144 * 73
    rw [grid_length]
  · intro y x hy hx
    exact ⟨grid_getElem? (fun y' x' => some (realGfsCell sampled y' x').1) 73 144 y x hy hx,
      grid_getElem? (fun y' x' => some (realGfsCell sampled y' x').2) 73 144 y x hy hx⟩

/-- C7 witness: shape and indexing evaluated at concrete inputs. -/
theorem C7_witness :
    ((0 : ℕ) < 73 ∧ (0 : ℕ) < 144) ∧
    (regrid_to_velocity_format emptyWD).u_data[0 * 144 + 0]? =
      some ((cellAt emptyWD 0 0).1) :=
  ⟨⟨by norm_num, by norm_num⟩,
    ((C7_grid_shape emptyWD noSamples).2.2.1 0 0 (by norm_num) (by norm_num)).1⟩

/-- C6: for every velocity grid (its lists satisfying the grid invariant),
the encoder emits exactly two objects — first the u component with
`parameterCategory = 2`, `parameterNumber = 2`, then the v component with
`parameterCategory = 2`, `parameterNumber = 3` — each carrying its flat data
list unchanged (hence in the header's row-major north-to-south,
west-to-east order) with length `nx·ny`. -/
theorem C6_encoder_fields (d : VelocityData)
    (hu : d.u_data.length = d.header.nx * d.header.ny)
    (hv : d.v_data.length = d.header.nx * d.header.ny) :
    (save_to_json d).length = 2 ∧
    ((save_to_json d).map fun it => it.header.parameterCategory) = [2, 2] ∧
    ((save_to_json d).map fun it => it.header.parameterNumber) = [2, 3] ∧
    ((save_to_json d).map fun it => it.data) = [d.u_data, d.v_data] ∧
    ((save_to_json d).map fun it => it.data.length) =
      [d.header.nx * d.header.ny, d.header.nx * d.header.ny] := by
  refine ⟨rfl, rfl, rfl, rfl, ?_⟩
  simp [save_to_json, hu, hv]

/-- C6 witness: the encoder applied to a concrete 2 × 1 grid. -/
theorem C6_witness :
    (encDemo.u_data.length = encDemo.header.nx * encDemo.header.ny ∧
      encDemo.v_data.length = encDemo.header.nx * encDemo.header.ny) ∧
    ((save_to_json encDemo).map fun it => it.header.parameterNumber) = [2, 3] :=
  ⟨⟨rfl, rfl⟩, (C6_encoder_fields encDemo rfl rfl).2.2.1⟩

theorem candList_wdC4 :
    candList wdC4.rows wdC4.cols =
      [(1,0),(2,0),(3,0),(4,0),(5,0),(6,0),(7,0),(8,0),(9,0),(10,0)] := rfl

theorem selectCell_wdC4 :
    selectCell wdC4 (targetLat 0) (targetLon 0) = ⟨some 8100, some 2, some 0⟩ := by
  rw [show targetLat 0 = 90 by norm_num [targetLat],
    show targetLon 0 = 0 by norm_num [targetLon]]
  rw [selectCell, candList_wdC4]
  norm_num [List.foldl_cons, List.foldl_nil, stepSel, ltInf, initSel, distQ, wdC4,
    srcLonNorm, dlonWrap]

/-- C4 (amended): the nearest-sample search ranges only over the fixed
centre window of the source arrays (`rows//2 ± 5` × `cols//2 ± 5`),
independent of the target cell; within that window it selects a sample of
minimal wrapped squared angular distance (recording its height and
direction), never consulting samples outside the window. -/
theorem C4_window_selection (wd : WaveData) (tlat tlon : ℚ) (c : ℕ × ℕ)
    (R : List (ℕ × ℕ)) (hc : candList wd.rows wd.cols = c :: R) :
    ∃ w ∈ candList wd.rows wd.cols,
      selectCell wd tlat tlon = selOf wd tlat tlon w ∧
      ∀ w' ∈ candList wd.rows wd.cols,
        distQ wd tlat tlon w ≤ distQ wd tlat tlon w' := by
  refine ⟨argminFirst (distQ wd tlat tlon) c R, ?_,
    selectCell_eq wd tlat tlon c R hc, ?_⟩
  · rw [hc]; exact argminFirst_mem _ c R
  · intro w' hw'; rw [hc] at hw'; exact argminFirst_le _ c R w' hw'

/-- C4 witness: the window characterization applied to the single-sample
fixture. -/
theorem C4_witness :
    candList wd1.rows wd1.cols = [(0, 0)] ∧
    ∃ w ∈ candList wd1.rows wd1.cols,
      selectCell wd1 90 0 = selOf wd1 90 0 w ∧
      ∀ w' ∈ candList wd1.rows wd1.cols, distQ wd1 90 0 w ≤ distQ wd1 90 0 w' :=
  ⟨rfl, C4_window_selection wd1 90 0 (0, 0) [] rfl⟩

theorem candList_wdC8 :
    candList wdC8.rows wdC8.cols =
      [(1,0),(2,0),(3,0),(4,0),(5,0),(6,0),(7,0),(8,0),(9,0),(10,0)] := rfl

theorem selectCell_wdC8 :
    selectCell wdC8 (targetLat 0) (targetLon 0) = ⟨some 1, some 2, some 0⟩ := by
  rw [show targetLat 0 = 90 by norm_num [targetLat],
    show targetLon 0 = 0 by norm_num [targetLon]]
  rw [selectCell, candList_wdC8]
  norm_num [List.foldl_cons, List.foldl_nil, stepSel, ltInf, initSel, distQ, wdC8,
    srcLonNorm, dlonWrap]

/-- C4 (counterexample): sample `(0,0)` of `wdC4` sits at distance `0` from
the cell centre `(90, 0)` — the unique global minimizer, all other samples
being at distance `8100` — yet the regrid scan records minimal distance
`8100` and the height `2` of sample `(1,0)`: the sample minimizing the
squared angular distance among all available samples is NOT selected,
because the scan only examines the fixed centre window (rows 1-10). -/
theorem C4_counterexample :
    distQ wdC4 (targetLat 0) (targetLon 0) (0, 0) = 0 ∧
    distQ wdC4 (targetLat 0) (targetLon 0) (1, 0) = 8100 ∧
    distQ wdC4 (targetLat 0) (targetLon 0) (2, 0) = 8100 ∧
    distQ wdC4 (targetLat 0) (targetLon 0) (3, 0) = 8100 ∧
    distQ wdC4 (targetLat 0) (targetLon 0) (4, 0) = 8100 ∧
    distQ wdC4 (targetLat 0) (targetLon 0) (5, 0) = 8100 ∧
    distQ wdC4 (targetLat 0) (targetLon 0) (6, 0) = 8100 ∧
    distQ wdC4 (targetLat 0) (targetLon 0) (7, 0) = 8100 ∧
    distQ wdC4 (targetLat 0) (targetLon 0) (8, 0) = 8100 ∧
    distQ wdC4 (targetLat 0) (targetLon 0) (9, 0) = 8100 ∧
    distQ wdC4 (targetLat 0) (targetLon 0) (10, 0) = 8100 ∧
    distQ wdC4 (targetLat 0) (targetLon 0) (11, 0) = 8100 ∧
    wdC4.heights 0 0 = some 7 ∧
    selectCell wdC4 (targetLat 0) (targetLon 0) = ⟨some 8100, some 2, some 0⟩ ∧
    (some (2 : ℚ) : Option ℚ) ≠ some 7 ∧ (0 : ℚ) < 8100 := by
  refine ⟨?_, ?_, ?_, ?_, ?_, ?_, ?_, ?_, ?_, ?_, ?_, ?_, rfl, selectCell_wdC4,
    by simp, by norm_num⟩ <;>
    norm_num [distQ, wdC4, srcLonNorm, dlonWrap, targetLat, targetLon]

/-- C8 (amended): within the scanned window (iterated in input-sequence
order), the selection is the FIRST sample attaining the minimal distance:
every earlier scanned sample is strictly farther; the selection is
deterministic in the input order. -/
theorem C8_first_minimizer_wins (wd : WaveData) (tlat tlon : ℚ) (c : ℕ × ℕ)
    (R : List (ℕ × ℕ)) (hc : candList wd.rows wd.cols = c :: R) :
    ∃ k, ∃ hk : k < (c :: R).length,
      selectCell wd tlat tlon = selOf wd tlat tlon ((c :: R).get ⟨k, hk⟩) ∧
      (∀ j, ∀ hj : j < (c :: R).length,
        distQ wd tlat tlon ((c :: R).get ⟨k, hk⟩) ≤
          distQ wd tlat tlon ((c :: R).get ⟨j, hj⟩)) ∧
      (∀ j, ∀ hj : j < (c :: R).length, j < k →
        distQ wd tlat tlon ((c :: R).get ⟨k, hk⟩) <
          distQ wd tlat tlon ((c :: R).get ⟨j, hj⟩)) := by
  obtain ⟨k, hk, heq, hstrict⟩ := argminFirst_first (distQ wd tlat tlon) c R
  refine ⟨k, hk, ?_, ?_, ?_⟩
  · rw [selectCell_eq wd tlat tlon c R hc, heq]
  · intro j hj
    rw [← heq]
    exact argminFirst_le _ c R _ (List.get_mem _ _ hj)
  · intro j hj hjk
    rw [← heq]
    exact hstrict j hj hjk

/-- C8 witness: the first-minimizer characterization applied to the
single-sample fixture. -/
theorem C8_witness :
    candList wd1.rows wd1.cols = [(0, 0)] ∧
    ∃ k, ∃ hk : k < [((0 : ℕ), (0 : ℕ))].length,
      selectCell wd1 90 0 = selOf wd1 90 0 ([(0, 0)].get ⟨k, hk⟩) ∧
      (∀ j, ∀ hj : j < [((0 : ℕ), (0 : ℕ))].length,
        distQ wd1 90 0 ([(0, 0)].get ⟨k, hk⟩) ≤
          distQ wd1 90 0 ([(0, 0)].get ⟨j, hj⟩)) ∧
      (∀ j, ∀ hj : j < [((0 : ℕ), (0 : ℕ))].length, j < k →
        distQ wd1 90 0 ([(0, 0)].get ⟨k, hk⟩) <
          distQ wd1 90 0 ([(0, 0)].get ⟨j, hj⟩)) :=
  ⟨rfl, C8_first_minimizer_wins wd1 90 0 (0, 0) [] rfl⟩

/-- C8 (counterexample): samples `(0,0)` and `(1,0)` of `wdC8` are
equidistant (distance 1) from the cell centre `(90, 0)`, and this is the
minimal distance over all samples (the rest are at 8100).  The claim says
the tie goes to the first in the input sequence — sample `(0,0)`, height 7 —
but the scan records height 2 of sample `(1,0)`: row 0 lies outside the
fixed centre window, so the first-in-sequence minimizer never competes. -/
theorem C8_counterexample :
    distQ wdC8 (targetLat 0) (targetLon 0) (0, 0) = 1 ∧
    distQ wdC8 (targetLat 0) (targetLon 0) (1, 0) = 1 ∧
    distQ wdC8 (targetLat 0) (targetLon 0) (2, 0) = 8100 ∧
    distQ wdC8 (targetLat 0) (targetLon 0) (3, 0) = 8100 ∧
    distQ wdC8 (targetLat 0) (targetLon 0) (4, 0) = 8100 ∧
    distQ wdC8 (targetLat 0) (targetLon 0) (5, 0) = 8100 ∧
    distQ wdC8 (targetLat 0) (targetLon 0) (6, 0) = 8100 ∧
    distQ wdC8 (targetLat 0) (targetLon 0) (7, 0) = 8100 ∧
    distQ wdC8 (targetLat 0) (targetLon 0) (8, 0) = 8100 ∧
    distQ wdC8 (targetLat 0) (targetLon 0) (9, 0) = 8100 ∧
    distQ wdC8 (targetLat 0) (targetLon 0) (10, 0) = 8100 ∧
    distQ wdC8 (targetLat 0) (targetLon 0) (11, 0) = 8100 ∧
    wdC8.heights 0 0 = some 7 ∧ wdC8.heights 1 0 = some 2 ∧
    selectCell wdC8 (targetLat 0) (targetLon 0) = ⟨some 1, some 2, some 0⟩ ∧
    (some (2 : ℚ) : Option ℚ) ≠ some 7 := by
  refine ⟨?_, ?_, ?_, ?_, ?_, ?_, ?_, ?_, ?_, ?_, ?_, ?_, rfl, rfl,
    selectCell_wdC8, by simp⟩ <;>
    norm_num [distQ, wdC8, srcLonNorm, dlonWrap, targetLat, targetLon]

theorem pyRound_142 : pyRound ((142 : ℚ) / 4) = 36 := by
  have hf : ⌊(142 : ℚ) / 4⌋ = 35 := by norm_num [Int.floor_eq_iff]
  norm_num [pyRound, hf, Int.even_iff]

theorem pyRound_143 : pyRound ((143 : ℚ) / 4) = 36 := by
  have hf : ⌊(143 : ℚ) / 4⌋ = 35 := by norm_num [Int.floor_eq_iff]
  norm_num [pyRound, hf]

/-- C10: the strided fill never raises — `find_nearest_sample` is total,
rounding each index to the nearest stride multiple (banker's rounding) and
clamping into `[0,72] × [0,143]` before a `dict.get` that yields `none` for
unsampled keys — and since the sampled x keys are the multiples of 4 up to
140 while columns 142 and 143 both round to 144 and clamp to the
never-sampled key 143, the last two grid columns always receive zero
velocity. -/
theorem C10_last_columns_zero (sampled : ℤ × ℤ → Option SampleR)
    (hS : SampledKeys sampled) :
    (∀ y x : ℤ, find_nearest_sample y x sampled 4 =
      sampled (max 0 (min 72 (pyRound ((y : ℚ) / ((4 : ℤ) : ℚ)) * 4)),
               max 0 (min 143 (pyRound ((x : ℚ) / ((4 : ℤ) : ℚ)) * 4)))) ∧
    (∀ y : ℤ, find_nearest_sample y 142 sampled 4 = none) ∧
    (∀ y : ℤ, find_nearest_sample y 143 sampled 4 = none) ∧
    (∀ y x : ℕ, y < 73 → x = 142 ∨ x = 143 →
      (fetch_gfs_wave_grid_simple sampled).u_data[y * 144 + x]? =
        some (some 0) ∧
      (fetch_gfs_wave_grid_simple sampled).v_data[y * 144 + x]? =
        some (some 0)) := by
  have key143 : ∀ q : ℤ × ℤ, q.2 = 143 → sampled q = none := by
    intro q hq
    by_contra h
    obtain ⟨_, _, _, h4, _, _⟩ := hS q h
    rw [hq] at h4
    omega
  have find142 : ∀ y : ℤ, find_nearest_sample y 142 sampled 4 = none := by
    intro y
    unfold find_nearest_sample
    apply key143
    show max 0 (min 143 (pyRound (((142 : ℤ) : ℚ) / ((4 : ℤ) : ℚ)) * 4)) = 143
    rw [show (((142 : ℤ) : ℚ) / ((4 : ℤ) : ℚ)) = (142 : ℚ) / 4 by norm_num,
      pyRound_142]
    norm_num
  have find143 : ∀ y : ℤ, find_nearest_sample y 143 sampled 4 = none := by
    intro y
    unfold find_nearest_sample
    apply key143
    show max 0 (min 143 (pyRound (((143 : ℤ) : ℚ) / ((4 : ℤ) : ℚ)) * 4)) = 143
    rw [show (((143 : ℤ) : ℚ) / ((4 : ℤ) : ℚ)) = (143 : ℚ) / 4 by norm_num,
      pyRound_143]
    norm_num
  refine ⟨fun y x => rfl, find142, find143, ?_⟩
  intro y x hy hx
  have hx144 : x < 144 := by rcases hx with rfl | rfl <;> norm_num
  have hcell : realGfsCell sampled y x = (0, 0) := by
    rcases hx with rfl | rfl
    · rw [realGfsCell, show ((142 : ℕ) : ℤ) = (142 : ℤ) by norm_num, find142]
    · rw [realGfsCell, show ((143 : ℕ) : ℤ) = (143 : ℤ) by norm_num, find143]
  constructor
  · have h1 := grid_getElem? (fun y' x' => some (realGfsCell sampled y' x').1)
      73 144 y x hy hx144
    simpa [hcell] using h1
  · have h2 := grid_getElem? (fun y' x' => some (realGfsCell sampled y' x').2)
      73 144 y x hy hx144
    simpa [hcell] using h2

/-- C10 witness: the column-143 lookup and fill evaluated on the empty
sampling map. -/
theorem C10_witness :
    SampledKeys noSamples ∧
    find_nearest_sample 0 142 noSamples 4 = none :=
  ⟨fun _ h => absurd rfl h, (C10_last_columns_zero noSamples
    (fun _ h => absurd rfl h)).2.1 0⟩
